import Mathlib

/-!
Verification development for a chat-platform file-hosting bot
(`src/index.js`).  The bot keeps a per-user quota ledger and referral
list in a document store (Firestore), stores uploaded artifacts in a
blob store keyed by `uploads/<userId>/<fileName>`, keeps an in-memory
banned set and per-admin conversation state, and offers a broadcast
fan-out.  The definitions below are a shallow embedding of the
handlers relevant to the claims under scrutiny; theorems about them
follow after the definitions.

Modelling conventions:
* JS numbers holding counters are embedded as `Int` (they can go
  negative); identifiers are `Nat` (Telegram ids) or `String`
  (document keys, ban-flow text input).
* The Firestore `users` collection is an association list keyed by the
  string document id.  `update` on an absent document fails, which we
  embed as an `Option` result (`none` = the promise rejects).
* A JS `Set` may mix numbers and strings; membership is strict
  (`SameValueZero`), so we embed set elements as a tagged value type.
* Fallible external calls (blob save / blob delete, message delivery)
  are embedded by a `Bool` outcome parameter: `true` = the awaited
  call resolves, `false` = it throws into the surrounding `catch`.
-/

/-- Association-list lookup (Firestore document `get` by key). -/
def alGet {κ α : Type} [DecidableEq κ] : List (κ × α) → κ → Option α
  | [], _ => none
  | (k, v) :: rest, key => if k = key then some v else alGet rest key

/-- Association-list write (Firestore `set`: replace or create). -/
def alSet {κ α : Type} [DecidableEq κ] : List (κ × α) → κ → α → List (κ × α)
  | [], key, v => [(key, v)]
  | (k, w) :: rest, key, v =>
    if k = key then (key, v) :: rest else (k, w) :: alSet rest key v

/-- Association-list delete (`Map.delete`). -/
def alDel {κ α : Type} [DecidableEq κ] : List (κ × α) → κ → List (κ × α)
  | [], _ => []
  | (k, w) :: rest, key => if k = key then alDel rest key else (k, w) :: alDel rest key

/-- The `stats` sub-record of a user document:
`{ fileCount, referrals, baseLimit, referralReward }`.
`referralReward` is absent until an admin sets it (`stats.referralReward || 1`
is used for display only). -/
structure Stats where
  fileCount : Int
  referrals : List String
  baseLimit : Int
  referralReward : Option Int
deriving DecidableEq, Repr

/-- A document of the `users` collection.  The `stats` field can be
absent (`doc.data().stats || default`). -/
structure UserDoc where
  chatId : Nat
  name : String
  joinedAt : String
  stats : Option Stats
deriving DecidableEq, Repr

/-- Default stats `{ fileCount: 0, referrals: [], baseLimit: 2 }` used
whenever the document or its `stats` field is absent. -/
def defaultStats : Stats :=
  { fileCount := 0, referrals := [], baseLimit := 2, referralReward := none }

/-- The `users` collection. -/
abbrev Users : Type := List (String × UserDoc)

/-- `getUserStats` resolved at a string document key: returns the
persisted stats, or the default when the document or its `stats` field
is absent (`src/index.js` lines 29-34). -/
def getUserStatsKey (users : Users) (key : String) : Stats :=
  match alGet users key with
  | none => defaultStats
  | some d => d.stats.getD defaultStats

/-- `getUserStats(userId)`: the key is `String(userId)`. -/
def getUserStats (users : Users) (userId : Nat) : Stats :=
  getUserStatsKey users (toString userId)

/-- The body of `canUploadFile` on a stats record:
`fileCount < baseLimit + referrals.length` (`src/index.js` lines 37-41). -/
def canUploadStats (st : Stats) : Bool :=
  decide (st.fileCount < st.baseLimit + (st.referrals.length : Int))

/-- `canUploadFile(userId)` (`src/index.js` lines 37-41). -/
def canUploadFile (users : Users) (userId : Nat) : Bool :=
  canUploadStats (getUserStats users userId)

/-- Firestore `userRef.update({ stats })`: replaces the `stats` field of
an existing document; rejects (`none`) when the document is absent. -/
def updateStatsAt (users : Users) (key : String) (st : Stats) : Option Users :=
  match alGet users key with
  | none => none
  | some d => some (alSet users key { d with stats := some st })

/-- `updateFileCount(userId, increment)` (`src/index.js` lines 44-49):
read-modify-write of `stats.fileCount` through `userRef.update`. -/
def updateFileCount (users : Users) (userId : Nat) (increment : Bool) : Option Users :=
  let st := getUserStats users userId
  let st' := { st with fileCount := if increment then st.fileCount + 1 else st.fileCount - 1 }
  updateStatsAt users (toString userId) st'

/-- An element of a JS `Set` that may hold numbers or strings;
`Set.has` uses SameValueZero, so `num n ≠ str s` always. -/
inductive JSVal
  | num (n : Nat)
  | str (s : String)
deriving DecidableEq, Repr

/-- `isBanned(userId)` = `bannedUsers.has(userId)` (`src/index.js`
lines 64-66).  The handlers pass the numeric `ctx.from.id`. -/
def isBanned (bannedUsers : List JSVal) (v : JSVal) : Bool :=
  decide (v ∈ bannedUsers)

/-- The whole mutable state the embedded handlers touch. -/
structure SysState where
  /-- Firestore `users` collection. -/
  users : Users
  /-- blob-store object paths (`uploads/<uid>/<file>`). -/
  storage : List String
  /-- the in-memory `bannedUsers` set. -/
  banned : List JSVal
  /-- the in-memory `users` set (`users.add(userId)` in `bot.start`). -/
  memUsers : List Nat
deriving DecidableEq, Repr

/-- JS `s.endsWith(t)` as a reducible list-suffix test. -/
def jsEndsWith (s t : String) : Bool :=
  t.toList.isSuffixOf s.toList

/-- JS `s.startsWith(t)` as a reducible list-prefix test. -/
def jsStartsWith (s t : String) : Bool :=
  t.toList.isPrefixOf s.toList

/-- JS `s.trim()`: strip leading and trailing whitespace. -/
def jsTrim (s : String) : String :=
  String.mk (((s.toList.dropWhile Char.isWhitespace).reverse.dropWhile Char.isWhitespace).reverse)

/-- Split a character list at every occurrence of `c` (JS
`String.prototype.split` with a one-character separator: `""` splits
to `[""]`, adjacent separators yield empty pieces). -/
def splitCharList (c : Char) : List Char → List (List Char)
  | [] => [[]]
  | x :: rest =>
    let r := splitCharList c rest
    if x = c then [] :: r
    else
      match r with
      | [] => [[x]]
      | g :: gs => (x :: g) :: gs

/-- JS `s.split(c)` for a one-character separator. -/
def jsSplit (s : String) (c : Char) : List String :=
  (splitCharList c s.toList).map String.mk

/-- Blob path `uploads/${ctx.from.id}/${file.file_name}`. -/
def uploadPath (userId : Nat) (fileName : String) : String :=
  "uploads/" ++ toString userId ++ "/" ++ fileName

/-- `fileRef.save(...)`: store the object (overwrite if present). -/
def savePath (storage : List String) (p : String) : List String :=
  if p ∈ storage then storage else p :: storage

/-- Replies of the `bot.on('document')` handler. -/
inductive UploadReply
  /-- "You are banned from using this bot." -/
  | bannedMsg
  /-- "You've reached your file upload limit". -/
  | limitMsg
  /-- "Please upload an HTML or ZIP file." -/
  | badTypeMsg
  /-- success message with the public link. -/
  | successMsg
  /-- "Error uploading your file. Try again later." (from `catch`). -/
  | errorMsg
deriving DecidableEq, Repr

/-- The `bot.on('document')` upload handler (`src/index.js` lines
771-838).  `saveOk` is the outcome of `fileRef.save`: when it throws,
the `catch` replies with the generic error and no state changed; when
it resolves, the blob is stored and then `updateFileCount(uid, true)`
runs — if that update rejects (absent user document) the `catch` fires
with the blob already persisted. -/
def uploadFlow (s : SysState) (userId : Nat) (fileName : String) (saveOk : Bool) :
    SysState × UploadReply :=
  if isBanned s.banned (JSVal.num userId) then (s, .bannedMsg)
  else if canUploadFile s.users userId = false then (s, .limitMsg)
  else if ¬ (jsEndsWith fileName ".html" = true ∨ jsEndsWith fileName ".zip" = true) then
    (s, .badTypeMsg)
  else if saveOk = false then (s, .errorMsg)
  else
    let storage' := savePath s.storage (uploadPath userId fileName)
    match updateFileCount s.users userId true with
    | none => ({ s with storage := storage' }, .errorMsg)
    | some users' => ({ s with storage := storage', users := users' }, .successMsg)

/-- Replies of the `bot.action(/^del_(.+)$/)` handler. -/
inductive DeleteReply
  /-- "File ... not found." -/
  | notFoundMsg
  /-- "File ... deleted successfully." -/
  | deletedMsg
  /-- "Error deleting file ..." (from `catch`). -/
  | errorMsg
deriving DecidableEq, Repr

/-- The `bot.action(/^del_(.+)$/)` deletion handler (`src/index.js`
lines 893-912).  Note: this handler has no `isBanned` gate.  `delOk`
is the outcome of `fileRef.delete()`; only after it resolves does
`updateFileCount(uid, false)` run. -/
def deleteFlow (s : SysState) (userId : Nat) (fileName : String) (delOk : Bool) :
    SysState × DeleteReply :=
  let p := uploadPath userId fileName
  if ¬ (p ∈ s.storage) then (s, .notFoundMsg)
  else if delOk = false then (s, .errorMsg)
  else
    let storage' := s.storage.erase p
    match updateFileCount s.users userId false with
    | none => ({ s with storage := storage' }, .errorMsg)
    | some users' => ({ s with storage := storage', users := users' }, .deletedMsg)

/-- The figures shown by the `mystats` action. -/
structure StatsView where
  fileCount : Int
  totalSlots : Int
  referralsMade : Nat
  accountLevel : Nat
deriving DecidableEq, Repr

/-- The `bot.action('mystats')` handler (`src/index.js` lines 175-189):
reads the stats and replies; it has no ban gate and mutates nothing. -/
def mystatsFlow (s : SysState) (userId : Nat) : StatsView :=
  let st := getUserStats s.users userId
  { fileCount := st.fileCount
  , totalSlots := st.baseLimit + (st.referrals.length : Int)
  , referralsMade := st.referrals.length
  , accountLevel := st.referrals.length / 2 + 1 }

/-- Replies of the `bot.action('myfiles')` handler. -/
inductive MyFilesReply
  | bannedMsg
  | noFilesMsg
  | listMsg (paths : List String)
deriving DecidableEq, Repr

/-- The user directory used by `getFiles({ prefix: ... })`. -/
def userDir (userId : Nat) : String :=
  "uploads/" ++ toString userId ++ "/"

/-- The `bot.action('myfiles')` handler (`src/index.js` lines 841-862). -/
def myfilesFlow (s : SysState) (userId : Nat) : MyFilesReply :=
  if isBanned s.banned (JSVal.num userId) then .bannedMsg
  else
    let fs := s.storage.filter (fun p => jsStartsWith p (userDir userId))
    if fs.length = 0 then .noFilesMsg else .listMsg fs

/-- Replies of the `bot.action('delete')` menu handler. -/
inductive DeleteMenuReply
  | bannedMsg
  | noFilesMsg
  | menuMsg (fileNames : List String)
deriving DecidableEq, Repr

/-- The `bot.action('delete')` handler (`src/index.js` lines 867-890):
listing of the user's blobs with one delete button per file name
(`file.name.split('/').pop()`). -/
def deleteMenuFlow (s : SysState) (userId : Nat) : DeleteMenuReply :=
  if isBanned s.banned (JSVal.num userId) then .bannedMsg
  else
    let fs := s.storage.filter (fun p => jsStartsWith p (userDir userId))
    if fs.length = 0 then .noFilesMsg
    else .menuMsg (fs.map (fun p => ((jsSplit p '/').getLast?).getD ""))

/-- `isAdmin(userId)`: `userId === Number(adminId)` (`src/index.js`
lines 59-61); `adminId` comes from the environment, passed here as a
parameter. -/
def isAdmin (adminId userId : Nat) : Bool :=
  decide (userId = adminId)

/-- The per-admin conversation state: the `adminStates` map plus the
legacy boolean mode flags kept "for backwards compatibility"
(`src/index.js` lines 93, 526-529). -/
structure ConvState where
  adminStates : List (Nat × String)
  banUserMode : Bool
  unbanUserMode : Bool
  defaultSlotsMode : Bool
  referralRewardMode : Bool
deriving DecidableEq, Repr

/-- The pristine conversation state. -/
def conv0 : ConvState :=
  { adminStates := [], banUserMode := false, unbanUserMode := false
  , defaultSlotsMode := false, referralRewardMode := false }

/-- `bot.action('add_slots')` (`src/index.js` lines 96-107): sets only
the `adminStates` entry, touching no mode flag. -/
def addSlotsAction (adminId : Nat) (c : ConvState) (userId : Nat) : ConvState :=
  if isAdmin adminId userId = false then c
  else { c with adminStates := alSet c.adminStates userId "add_slots" }

/-- `bot.action('ban_user')` (`src/index.js` lines 532-547). -/
def banUserAction (adminId : Nat) (c : ConvState) (userId : Nat) : ConvState :=
  if isAdmin adminId userId = false then c
  else { c with
    adminStates := alSet c.adminStates userId "ban_user"
    banUserMode := true
    unbanUserMode := false
    defaultSlotsMode := false
    referralRewardMode := false }

/-- `bot.action('unban_user')` (`src/index.js` lines 550-565). -/
def unbanUserAction (adminId : Nat) (c : ConvState) (userId : Nat) : ConvState :=
  if isAdmin adminId userId = false then c
  else { c with
    adminStates := alSet c.adminStates userId "unban_user"
    banUserMode := false
    unbanUserMode := true
    defaultSlotsMode := false
    referralRewardMode := false }

/-- `bot.action('edit_default_slots')` (`src/index.js` lines 673-686). -/
def editDefaultSlotsAction (adminId : Nat) (c : ConvState) (userId : Nat) : ConvState :=
  if isAdmin adminId userId = false then c
  else { c with
    adminStates := alSet c.adminStates userId "edit_default_slots"
    banUserMode := false
    unbanUserMode := false
    defaultSlotsMode := true
    referralRewardMode := false }

/-- `bot.action('edit_referral_reward')` (`src/index.js` lines 689-702). -/
def editReferralRewardAction (adminId : Nat) (c : ConvState) (userId : Nat) : ConvState :=
  if isAdmin adminId userId = false then c
  else { c with
    adminStates := alSet c.adminStates userId "edit_referral_reward"
    banUserMode := false
    unbanUserMode := false
    defaultSlotsMode := false
    referralRewardMode := true }

/-- JS `parseInt` restricted to base-10 inputs: skip surrounding
whitespace, optional sign, read the maximal leading digit run; `none`
models `NaN`. -/
def parseIntJS (s : String) : Option Int :=
  let cs := (jsTrim s).toList
  let signed : Bool × List Char :=
    match cs with
    | '-' :: r => (true, r)
    | '+' :: r => (false, r)
    | r => (false, r)
  let ds := signed.2.takeWhile Char.isDigit
  if ds.isEmpty then none
  else
    let n : Nat := ds.foldl (fun a c => a * 10 + (c.toNat - 48)) 0
    some (if signed.1 then -(n : Int) else (n : Int))

/-- Replies of the `bot.on('text')` admin handler. -/
inductive TextReply
  /-- handler fell through without acting (non-admin, or no pending state). -/
  | noReply
  /-- "Invalid format. Please use: UserID NumberOfSlots". -/
  | invalidFormatMsg
  /-- "User not found." -/
  | userNotFoundMsg
  /-- "Successfully added ... slots". -/
  | slotsAddedMsg (target : String) (slots : Int)
  /-- "User ... has been banned." -/
  | bannedOkMsg (target : String)
  /-- "User ... has been unbanned." -/
  | unbannedOkMsg (target : String)
  /-- "Please enter a valid number greater than 0." -/
  | invalidNumberMsg
  /-- "Default slot limit updated to ...". -/
  | defaultUpdatedMsg (n : Int)
  /-- "Referral reward updated to ...". -/
  | rewardUpdatedMsg (n : Int)
deriving DecidableEq, Repr

/-- `stats.baseLimit = newLimit` applied to every user document
(the `defaultSlotsMode` branch loop). -/
def setAllBaseLimit (users : Users) (n : Int) : Users :=
  users.map (fun kd =>
    (kd.1, { kd.2 with stats := some { (kd.2.stats.getD defaultStats) with baseLimit := n } }))

/-- `stats.referralReward = rewardSlots` applied to every user document
(the `referralRewardMode` branch loop). -/
def setAllReferralReward (users : Users) (n : Int) : Users :=
  users.map (fun kd =>
    (kd.1, { kd.2 with stats := some { (kd.2.stats.getD defaultStats) with referralReward := some n } }))

/-- The first element of `text.trim().split(' ')` — the destructured
`targetUserId` of the add-slots branch (`""` when the text is empty,
matching JS falsiness of the empty string). -/
def addSlotsTarget (text : String) : String :=
  ((jsSplit (jsTrim text) ' ').get? 0).getD ""

/-- `parseInt(slotsToAdd)` where `slotsToAdd` is the second element of
`text.trim().split(' ')` (absent element: `parseInt(undefined)` is
`NaN`, i.e. `none`). -/
def addSlotsNum (text : String) : Option Int :=
  match (jsSplit (jsTrim text) ' ').get? 1 with
  | none => none
  | some w => parseIntJS w

/-- `bannedUsers.add(text)` on the embedded set. -/
def bansAdd (banned : List JSVal) (text : String) : List JSVal :=
  if JSVal.str text ∈ banned then banned else JSVal.str text :: banned

/-- The `bot.on('text')` handler (`src/index.js` lines 568-670).
Guard order follows the source: the incoming text is trimmed, the
`adminStates` map is consulted only for `'add_slots'` (and the entry
deleted up front); the four legacy mode flags are then checked in
order, each cleared before its payload is validated.  Returns the new
system state, the new conversation state and the reply. -/
def textFlow (adminId : Nat) (s : SysState) (c : ConvState) (userId : Nat) (text0 : String) :
    SysState × ConvState × TextReply :=
  if isAdmin adminId userId = false then (s, c, .noReply)
  else if alGet c.adminStates userId = some "add_slots" then
    match addSlotsNum (jsTrim text0) with
    | none => (s, { c with adminStates := alDel c.adminStates userId }, .invalidFormatMsg)
    | some slots =>
      if addSlotsTarget (jsTrim text0) = "" then
        (s, { c with adminStates := alDel c.adminStates userId }, .invalidFormatMsg)
      else
        match alGet s.users (addSlotsTarget (jsTrim text0)) with
        | none => (s, { c with adminStates := alDel c.adminStates userId }, .userNotFoundMsg)
        | some d =>
          ({ s with users := alSet s.users (addSlotsTarget (jsTrim text0))
                        ({ d with stats := some { (d.stats.getD defaultStats) with
                            baseLimit := (d.stats.getD defaultStats).baseLimit + slots } }) },
           { c with adminStates := alDel c.adminStates userId },
           .slotsAddedMsg (addSlotsTarget (jsTrim text0)) slots)
  else if c.banUserMode then
    ({ s with banned := bansAdd s.banned (jsTrim text0) },
     { c with banUserMode := false }, .bannedOkMsg (jsTrim text0))
  else if c.unbanUserMode then
    ({ s with banned := s.banned.erase (JSVal.str (jsTrim text0)) },
     { c with unbanUserMode := false }, .unbannedOkMsg (jsTrim text0))
  else if c.defaultSlotsMode then
    match parseIntJS (jsTrim text0) with
    | none => (s, { c with defaultSlotsMode := false }, .invalidNumberMsg)
    | some n =>
      if n < 1 then (s, { c with defaultSlotsMode := false }, .invalidNumberMsg)
      else ({ s with users := setAllBaseLimit s.users n },
            { c with defaultSlotsMode := false }, .defaultUpdatedMsg n)
  else if c.referralRewardMode then
    match parseIntJS (jsTrim text0) with
    | none => (s, { c with referralRewardMode := false }, .invalidNumberMsg)
    | some n =>
      if n < 1 then (s, { c with referralRewardMode := false }, .invalidNumberMsg)
      else ({ s with users := setAllReferralReward s.users n },
            { c with referralRewardMode := false }, .rewardUpdatedMsg n)
  else (s, c, .noReply)

/-- The modality of the authored broadcast message
(`message.text` / `message.photo` / `message.video` / anything else). -/
inductive MsgKind
  | textMsg
  | photoMsg
  | videoMsg
  | otherMsg
deriving DecidableEq, Repr

/-- Whether the broadcast loop attempts a delivery for this modality. -/
def supportedKind : MsgKind → Bool
  | .otherMsg => false
  | _ => true

/-- The broadcast fan-out loop (`src/index.js` lines 486-516): one
`(chatId, outcome)` pair per user document, `outcome = true` when the
send resolves and `false` when it throws into the per-recipient
`catch`; for an unsupported modality no send is attempted.  Returns
`(sentCount, failedCount)`. -/
def broadcastRun (kind : MsgKind) (recipients : List (Nat × Bool)) : Nat × Nat :=
  recipients.foldl
    (fun acc r =>
      match kind with
      | .otherMsg => acc
      | _ => if r.2 then (acc.1 + 1, acc.2) else (acc.1, acc.2 + 1))
    (0, 0)

/-- Recipients counted in neither `sent` nor `failed`: those receiving
a message whose modality none of the three send branches handles. -/
def skippedCount (kind : MsgKind) (recipients : List (Nat × Bool)) : Nat :=
  if supportedKind kind then 0 else recipients.length

/-- The `initialData` document created at first contact
(`src/index.js` lines 314-319). -/
def initialUserDoc (userId : Nat) (userName now : String) : UserDoc :=
  { chatId := userId, name := userName, joinedAt := now, stats := some defaultStats }

/-- The registration part of `bot.start` (`src/index.js` lines
310-360), run after the ban gate and the in-memory `users.add`: when
the referee's document is absent, optionally attribute the referral
(payload nonempty, not the referee's own id, referrer document
present, referee not already in the referrer's list — appending
`String(userId)` and persisting through `update`), then create the
referee's document. -/
def startRegister (s : SysState) (userId : Nat) (userName payload now : String) : SysState :=
  match alGet s.users (toString userId) with
  | some _ => s
  | none =>
    if payload ≠ "" ∧ payload ≠ toString userId then
      match alGet s.users payload with
      | none =>
        { s with users := alSet s.users (toString userId) (initialUserDoc userId userName now) }
      | some _ =>
        if toString userId ∈ (getUserStatsKey s.users payload).referrals then
          { s with users := alSet s.users (toString userId) (initialUserDoc userId userName now) }
        else
          match updateStatsAt s.users payload
              { getUserStatsKey s.users payload with
                referrals := (getUserStatsKey s.users payload).referrals ++ [toString userId] } with
          | none => s
          | some users' =>
            { s with users := alSet users' (toString userId) (initialUserDoc userId userName now) }
    else { s with users := alSet s.users (toString userId) (initialUserDoc userId userName now) }

/-- The `bot.start` handler (`src/index.js` lines 298-379), restricted
to its state effects: ban gate, in-memory `users.add`, then
registration/attribution.  `payload` is `ctx.startPayload` (the empty
string when absent); `now` the ambient clock string.  The daily-usage
transaction touches a separate collection, modelled by
`trackDailyUsage` below. -/
def startFlow (s : SysState) (userId : Nat) (userName : String) (payload : String)
    (now : String) : SysState :=
  if isBanned s.banned (JSVal.num userId) then s
  else
    startRegister
      { s with memUsers := if userId ∈ s.memUsers then s.memUsers else userId :: s.memUsers }
      userId userName payload now

/-- One record of the `dailyStats` collection. -/
structure DailyRec where
  users : List Nat
  count : Int
deriving DecidableEq, Repr

/-- `trackDailyUsage` (`src/index.js` lines 253-275): transactional
read-modify-write of today's record, counting each user once. -/
def trackDailyUsage (daily : List (String × DailyRec)) (today : String) (userId : Nat) :
    List (String × DailyRec) :=
  match alGet daily today with
  | none => alSet daily today { users := [userId], count := 1 }
  | some r =>
    if userId ∈ r.users then daily
    else alSet daily today { users := r.users ++ [userId], count := r.count + 1 }

/-- One user-driven operation through the gated upload/delete path,
with the blob-store outcome it encounters. -/
inductive FileOp
  | up (fileName : String) (saveOk : Bool)
  | del (fileName : String) (delOk : Bool)
deriving DecidableEq, Repr

/-- Execute one gated operation for `userId`, keeping the state. -/
def applyFileOp (userId : Nat) (s : SysState) : FileOp → SysState
  | .up n ok => (uploadFlow s userId n ok).1
  | .del n ok => (deleteFlow s userId n ok).1

/-- Execute a sequence of gated operations for `userId`. -/
def applyFileOps (userId : Nat) (s : SysState) : List FileOp → SysState
  | [] => s
  | op :: rest => applyFileOps userId (applyFileOp userId s op) rest

/-- The quota invariant for the user behind a document key:
`fileCount ≤ baseLimit + referrals.length` on the effective stats. -/
def quotaInv (users : Users) (key : String) : Prop :=
  (getUserStatsKey users key).fileCount ≤
    (getUserStatsKey users key).baseLimit + ((getUserStatsKey users key).referrals.length : Int)

instance (users : Users) (key : String) : Decidable (quotaInv users key) := by
  unfold quotaInv; infer_instance

/-! ### Association-list and store lemmas -/

theorem alGet_alSet_self {κ α : Type} [DecidableEq κ] (l : List (κ × α)) (k : κ) (v : α) :
    alGet (alSet l k v) k = some v := by
  induction l with
  | nil => simp [alGet, alSet]
  | cons p rest ih =>
    rcases p with ⟨k', w⟩
    by_cases h : k' = k
    · simp [alSet, h, alGet]
    · simp [alSet, h, alGet, ih]

theorem alGet_alSet_ne {κ α : Type} [DecidableEq κ] (l : List (κ × α)) (k k' : κ) (v : α)
    (h : k' ≠ k) : alGet (alSet l k v) k' = alGet l k' := by
  induction l with
  | nil => simp [alGet, alSet, Ne.symm h]
  | cons p rest ih =>
    rcases p with ⟨k₀, w⟩
    by_cases h0 : k₀ = k
    · subst h0
      simp [alSet, alGet, Ne.symm h]
    · simp [alSet, h0, alGet, ih]

theorem alGet_alDel_self {κ α : Type} [DecidableEq κ] (l : List (κ × α)) (k : κ) :
    alGet (alDel l k) k = none := by
  induction l with
  | nil => simp [alGet, alDel]
  | cons p rest ih =>
    rcases p with ⟨k', w⟩
    by_cases h : k' = k
    · simp [alDel, h, ih]
    · simp [alDel, h, alGet, ih]

theorem updateStatsAt_of_get (users : Users) (key : String) (st : Stats) (d : UserDoc)
    (h : alGet users key = some d) :
    updateStatsAt users key st = some (alSet users key { d with stats := some st }) := by
  simp [updateStatsAt, h]

theorem updateStatsAt_of_absent (users : Users) (key : String) (st : Stats)
    (h : alGet users key = none) : updateStatsAt users key st = none := by
  simp [updateStatsAt, h]

theorem getUserStatsKey_of_update (users users' : Users) (key : String) (st : Stats)
    (h : updateStatsAt users key st = some users') : getUserStatsKey users' key = st := by
  unfold updateStatsAt at h
  cases hg : alGet users key with
  | none => rw [hg] at h; cases h
  | some d =>
    rw [hg] at h
    cases h
    simp [getUserStatsKey, alGet_alSet_self]

/-! ### C1: the upload-permission formula -/

/-- C1: `canUpload` returns true iff `fileCount < baseLimit +
len(referrals)`; it is a pure read (embedded as a function of the
collection, returning no new state), and the allowance formula is
independent of `referralReward` — the referral count is not multiplied
by the reward value. -/
theorem quota_check_formula :
    (∀ (users : Users) (uid : Nat),
      canUploadFile users uid = true ↔
        (getUserStats users uid).fileCount <
          (getUserStats users uid).baseLimit + ((getUserStats users uid).referrals.length : Int))
    ∧ (∀ (st : Stats) (r : Option Int),
        canUploadStats { st with referralReward := r } = canUploadStats st) := by
  constructor
  · intro users uid
    simp [canUploadFile, canUploadStats]
  · intro st r
    rfl

/-! ### C5: broadcast counters partition the recipients -/

theorem broadcast_foldl_char (rs : List (Nat × Bool)) (a b : Nat) :
    rs.foldl (fun acc r => if r.2 then (acc.1 + 1, acc.2) else (acc.1, acc.2 + 1)) (a, b)
      = (a + (rs.filter (fun r => r.2)).length, b + (rs.filter (fun r => !r.2)).length) := by
  induction rs generalizing a b with
  | nil => simp
  | cons r rest ih =>
    cases hr : r.2 with
    | true => simp [List.foldl, hr, ih]; omega
    | false => simp [List.foldl, hr, ih]; omega

theorem filter_bool_length (rs : List (Nat × Bool)) :
    (rs.filter (fun r => r.2)).length + (rs.filter (fun r => !r.2)).length = rs.length := by
  induction rs with
  | nil => simp
  | cons r rest ih =>
    cases hr : r.2 <;> simp [hr, List.filter] <;> omega

/-- C5: a broadcast run partitions the recipients exactly:
`sent + failed + skipped = total`, where for a supported modality the
sent count is the number of recipients whose delivery resolves and the
failed count the number whose delivery throws (the loop visits every
recipient, never aborting), and for an unsupported modality every
recipient is skipped (no send attempted, neither counter moves). -/
theorem broadcast_partitions (kind : MsgKind) (rs : List (Nat × Bool)) :
    ((broadcastRun kind rs).1 + (broadcastRun kind rs).2 + skippedCount kind rs = rs.length)
    ∧ (supportedKind kind = true →
        (broadcastRun kind rs).1 = (rs.filter (fun r => r.2)).length
        ∧ (broadcastRun kind rs).2 = (rs.filter (fun r => !r.2)).length)
    ∧ (supportedKind kind = false → broadcastRun kind rs = (0, 0)) := by
  cases kind with
  | otherMsg =>
    have hconst : broadcastRun MsgKind.otherMsg rs = (0, 0) := by
      unfold broadcastRun
      induction rs with
      | nil => rfl
      | cons r rest ih => simp [List.foldl, ih]
    refine ⟨?_, ?_, fun _ => hconst⟩
    · simp [hconst, skippedCount, supportedKind]
    · intro h; cases h
  | textMsg =>
    have hchar : broadcastRun MsgKind.textMsg rs
        = ((rs.filter (fun r => r.2)).length, (rs.filter (fun r => !r.2)).length) := by
      unfold broadcastRun
      simpa using broadcast_foldl_char rs 0 0
    refine ⟨?_, fun _ => ⟨by simp [hchar], by simp [hchar]⟩, ?_⟩
    · simp [hchar, skippedCount, supportedKind, filter_bool_length]
    · intro h; cases h
  | photoMsg =>
    have hchar : broadcastRun MsgKind.photoMsg rs
        = ((rs.filter (fun r => r.2)).length, (rs.filter (fun r => !r.2)).length) := by
      unfold broadcastRun
      simpa using broadcast_foldl_char rs 0 0
    refine ⟨?_, fun _ => ⟨by simp [hchar], by simp [hchar]⟩, ?_⟩
    · simp [hchar, skippedCount, supportedKind, filter_bool_length]
    · intro h; cases h
  | videoMsg =>
    have hchar : broadcastRun MsgKind.videoMsg rs
        = ((rs.filter (fun r => r.2)).length, (rs.filter (fun r => !r.2)).length) := by
      unfold broadcastRun
      simpa using broadcast_foldl_char rs 0 0
    refine ⟨?_, fun _ => ⟨by simp [hchar], by simp [hchar]⟩, ?_⟩
    · simp [hchar, skippedCount, supportedKind, filter_bool_length]
    · intro h; cases h


/-! ### Characterizing the users collection after upload/delete -/

theorem updateFileCount_true_of_get (s : SysState) (uid : Nat) (d : UserDoc)
    (hdoc : alGet s.users (toString uid) = some d) :
    updateFileCount s.users uid true
      = some (alSet s.users (toString uid)
          { d with stats := some { getUserStats s.users uid with
              fileCount := (getUserStats s.users uid).fileCount + 1 } }) := by
  unfold updateFileCount
  exact updateStatsAt_of_get _ _ _ _ hdoc

theorem updateFileCount_false_of_get (s : SysState) (uid : Nat) (d : UserDoc)
    (hdoc : alGet s.users (toString uid) = some d) :
    updateFileCount s.users uid false
      = some (alSet s.users (toString uid)
          { d with stats := some { getUserStats s.users uid with
              fileCount := (getUserStats s.users uid).fileCount - 1 } }) := by
  unfold updateFileCount
  exact updateStatsAt_of_get _ _ _ _ hdoc

theorem updateFileCount_of_absent (s : SysState) (uid : Nat) (inc : Bool)
    (hdoc : alGet s.users (toString uid) = none) :
    updateFileCount s.users uid inc = none := by
  unfold updateFileCount
  exact updateStatsAt_of_absent _ _ _ hdoc

theorem uploadFlow_users_char (s : SysState) (uid : Nat) (nm : String) (ok : Bool) :
    (uploadFlow s uid nm ok).1.users = s.users
    ∨ (canUploadFile s.users uid = true ∧
       ∃ d, alGet s.users (toString uid) = some d ∧
         (uploadFlow s uid nm ok).1.users
           = alSet s.users (toString uid)
               { d with stats := some { getUserStats s.users uid with
                   fileCount := (getUserStats s.users uid).fileCount + 1 } }) := by
  by_cases hb : isBanned s.banned (JSVal.num uid) = true
  · left; simp [uploadFlow, hb]
  have hb' : isBanned s.banned (JSVal.num uid) = false := by
    revert hb; cases isBanned s.banned (JSVal.num uid) <;> simp
  by_cases hc : canUploadFile s.users uid = false
  · left; simp [uploadFlow, hb', hc]
  have hc' : canUploadFile s.users uid = true := by
    revert hc; cases canUploadFile s.users uid <;> simp
  by_cases hext : jsEndsWith nm ".html" = true ∨ jsEndsWith nm ".zip" = true
  · by_cases hok : ok = false
    · subst hok; left; simp [uploadFlow, hb', hc', hext]
    have hok' : ok = true := by revert hok; cases ok <;> simp
    subst hok'
    rcases (alGet s.users (toString uid)).eq_none_or_eq_some with hg | ⟨d, hg⟩
    · left; simp [uploadFlow, hb', hc', hext, updateFileCount_of_absent s uid true hg]
    · right
      exact ⟨hc', d, hg,
        by simp [uploadFlow, hb', hc', hext, updateFileCount_true_of_get s uid d hg]⟩
  · left; simp [uploadFlow, hb', hc', hext]

theorem deleteFlow_users_char (s : SysState) (uid : Nat) (nm : String) (ok : Bool) :
    (deleteFlow s uid nm ok).1.users = s.users
    ∨ ∃ d, alGet s.users (toString uid) = some d ∧
        (deleteFlow s uid nm ok).1.users
          = alSet s.users (toString uid)
              { d with stats := some { getUserStats s.users uid with
                  fileCount := (getUserStats s.users uid).fileCount - 1 } } := by
  by_cases hmem : uploadPath uid nm ∈ s.storage
  · by_cases hok : ok = false
    · subst hok; left; simp [deleteFlow, hmem]
    have hok' : ok = true := by revert hok; cases ok <;> simp
    subst hok'
    rcases (alGet s.users (toString uid)).eq_none_or_eq_some with hg | ⟨d, hg⟩
    · left; simp [deleteFlow, hmem, updateFileCount_of_absent s uid false hg]
    · right
      exact ⟨d, hg,
        by simp [deleteFlow, hmem, updateFileCount_false_of_get s uid d hg]⟩
  · left; simp [deleteFlow, hmem]

/-! ### C2: the ledger update is sequenced after the storage call -/

/-- C2: in the upload flow and in the delete flow the ledger is
written only after the storage call resolves: when `fileRef.save`
throws, the users collection (hence `fileCount`) is untouched, and
likewise when `fileRef.delete` throws; past the gates (not banned,
quota available, accepted extension, blob present for delete) and with
the user's document present so the ledger write itself can land, the
increment happens exactly when the save succeeds and the decrement
exactly when the delete succeeds. -/
theorem ledger_after_storage (s : SysState) (uid : Nat) (nm : String) (d : UserDoc) (ok : Bool)
    (hdoc : alGet s.users (toString uid) = some d)
    (hban : isBanned s.banned (JSVal.num uid) = false)
    (hcan : canUploadFile s.users uid = true)
    (hext : jsEndsWith nm ".html" = true ∨ jsEndsWith nm ".zip" = true)
    (hblob : uploadPath uid nm ∈ s.storage) :
    ((uploadFlow s uid nm false).1.users = s.users)
    ∧ ((getUserStats (uploadFlow s uid nm ok).1.users uid).fileCount
        = (getUserStats s.users uid).fileCount + (if ok then 1 else 0))
    ∧ ((deleteFlow s uid nm false).1.users = s.users)
    ∧ ((getUserStats (deleteFlow s uid nm ok).1.users uid).fileCount
        = (getUserStats s.users uid).fileCount - (if ok then 1 else 0)) := by
  refine ⟨?_, ?_, ?_, ?_⟩
  · simp [uploadFlow, hban, hcan, hext]
  · cases ok with
    | false => simp [uploadFlow, hban, hcan, hext]
    | true =>
      have hu : (uploadFlow s uid nm true).1.users
          = alSet s.users (toString uid)
              { d with stats := some { getUserStats s.users uid with
                  fileCount := (getUserStats s.users uid).fileCount + 1 } } := by
        simp [uploadFlow, hban, hcan, hext, updateFileCount_true_of_get s uid d hdoc]
      rw [hu]
      simp [getUserStats, getUserStatsKey, alGet_alSet_self]
  · simp [deleteFlow, hblob]
  · cases ok with
    | false => simp [deleteFlow, hblob]
    | true =>
      have hu : (deleteFlow s uid nm true).1.users
          = alSet s.users (toString uid)
              { d with stats := some { getUserStats s.users uid with
                  fileCount := (getUserStats s.users uid).fileCount - 1 } } := by
        simp [deleteFlow, hblob, updateFileCount_false_of_get s uid d hdoc]
      rw [hu]
      simp [getUserStats, getUserStatsKey, alGet_alSet_self]

/-- Concrete witness state: user 5 with an existing document, one
uploaded blob, nobody banned. -/
def wSys : SysState :=
  { users := [("5", { chatId := 5, name := "w", joinedAt := "t"
                    , stats := some { fileCount := 1, referrals := [], baseLimit := 2
                                    , referralReward := none } })]
  , storage := ["uploads/5/a.html"]
  , banned := []
  , memUsers := [5] }

/-- The document of user 5 inside `wSys`. -/
def wDoc : UserDoc :=
  { chatId := 5, name := "w", joinedAt := "t"
  , stats := some { fileCount := 1, referrals := [], baseLimit := 2
                  , referralReward := none } }

/-- Witness for `ledger_after_storage` at the concrete state `wSys`. -/
theorem ledger_after_storage_witness :
    (alGet wSys.users (toString 5) = some wDoc)
    ∧ isBanned wSys.banned (JSVal.num 5) = false
    ∧ canUploadFile wSys.users 5 = true
    ∧ (jsEndsWith "a.html" ".html" = true ∨ jsEndsWith "a.html" ".zip" = true)
    ∧ uploadPath 5 "a.html" ∈ wSys.storage
    ∧ (((uploadFlow wSys 5 "a.html" false).1.users = wSys.users)
       ∧ ((getUserStats (uploadFlow wSys 5 "a.html" true).1.users 5).fileCount
           = (getUserStats wSys.users 5).fileCount + (if true then 1 else 0))
       ∧ ((deleteFlow wSys 5 "a.html" false).1.users = wSys.users)
       ∧ ((getUserStats (deleteFlow wSys 5 "a.html" true).1.users 5).fileCount
           = (getUserStats wSys.users 5).fileCount - (if true then 1 else 0))) :=
  ⟨by decide, by decide, by decide, Or.inl (by decide), by decide,
   ledger_after_storage wSys 5 "a.html" wDoc true
     (by decide) (by decide) (by decide) (Or.inl (by decide)) (by decide)⟩

/-! ### C6: the quota invariant along gated upload/delete sequences -/

theorem getUserStatsKey_set_stats (users : Users) (key : String) (d : UserDoc) (st : Stats) :
    getUserStatsKey (alSet users key { d with stats := some st }) key = st := by
  simp [getUserStatsKey, alGet_alSet_self]

theorem quotaInv_applyFileOp (uid : Nat) (s : SysState) (op : FileOp)
    (h : quotaInv s.users (toString uid)) :
    quotaInv (applyFileOp uid s op).users (toString uid) := by
  cases op with
  | up nm ok =>
    rcases uploadFlow_users_char s uid nm ok with hsame | ⟨hcan, d, hg, heq⟩
    · simpa [applyFileOp, hsame] using h
    · have hlt : (getUserStats s.users uid).fileCount <
          (getUserStats s.users uid).baseLimit +
            ((getUserStats s.users uid).referrals.length : Int) := by
        have h2 := hcan
        unfold canUploadFile canUploadStats at h2
        exact of_decide_eq_true h2
      unfold quotaInv
      simp only [applyFileOp]
      rw [heq, getUserStatsKey_set_stats]
      simp only [getUserStats] at hlt ⊢
      omega
  | del nm ok =>
    rcases deleteFlow_users_char s uid nm ok with hsame | ⟨d, hg, heq⟩
    · simpa [applyFileOp, hsame] using h
    · unfold quotaInv at h ⊢
      simp only [applyFileOp]
      rw [heq, getUserStatsKey_set_stats]
      simp only [getUserStats]
      omega

/-- C6: along any finite sequence of uploads and deletes executed
through the gated path (the document handler checks `canUpload` before
storing and incrementing, the delete handler decrements only after a
successful blob deletion), the invariant
`fileCount ≤ baseLimit + len(referrals)` is preserved, given that it
held initially; no other operation runs during the sequence, so
`baseLimit` and `referrals` are only read. -/
theorem quota_invariant_sequences (uid : Nat) (ops : List FileOp) (s : SysState)
    (h : quotaInv s.users (toString uid)) :
    quotaInv (applyFileOps uid s ops).users (toString uid) := by
  induction ops generalizing s with
  | nil => exact h
  | cons op rest ih => exact ih (applyFileOp uid s op) (quotaInv_applyFileOp uid s op h)

/-- Witness for `quota_invariant_sequences`: starting from `wSys`
(one file counted, allowance two) run two uploads (the second is
refused by the gate), a delete, and an upload whose save throws. -/
theorem quota_invariant_sequences_witness :
    quotaInv wSys.users (toString 5)
    ∧ quotaInv (applyFileOps 5 wSys
        [FileOp.up "b.html" true, FileOp.up "c.html" true,
         FileOp.del "a.html" true, FileOp.up "d.html" false]).users (toString 5) :=
  ⟨by decide,
   quota_invariant_sequences 5
     [FileOp.up "b.html" true, FileOp.up "c.html" true,
      FileOp.del "a.html" true, FileOp.up "d.html" false] wSys (by decide)⟩


/-! ### Start-flow lemmas -/

theorem startRegister_banned (s : SysState) (uid : Nat) (nm p now : String) :
    (startRegister s uid nm p now).banned = s.banned := by
  unfold startRegister
  repeat' split
  all_goals rfl

theorem startFlow_banned_const (s : SysState) (uid : Nat) (nm p now : String) :
    (startFlow s uid nm p now).banned = s.banned := by
  unfold startFlow
  split
  · rfl
  · rw [startRegister_banned]

theorem startFlow_users_of_doc (s : SysState) (uid : Nat) (nm p now : String) (d : UserDoc)
    (hd : alGet s.users (toString uid) = some d) :
    (startFlow s uid nm p now).users = s.users := by
  unfold startFlow startRegister
  split
  · rfl
  · simp [hd]

theorem startRegister_doc_exists (s : SysState) (uid : Nat) (nm p now : String) :
    ∃ d, alGet (startRegister s uid nm p now).users (toString uid) = some d := by
  unfold startRegister
  rcases (alGet s.users (toString uid)).eq_none_or_eq_some with hg | ⟨d, hg⟩
  · simp only [hg]
    by_cases hp : p ≠ "" ∧ p ≠ toString uid
    · rw [if_pos hp]
      rcases (alGet s.users p).eq_none_or_eq_some with hg2 | ⟨d2, hg2⟩
      · simp only [hg2]
        exact ⟨_, alGet_alSet_self _ _ _⟩
      · simp only [hg2]
        split
        · exact ⟨_, alGet_alSet_self _ _ _⟩
        · rw [updateStatsAt_of_get s.users p _ d2 hg2]
          exact ⟨_, alGet_alSet_self _ _ _⟩
    · rw [if_neg hp]
      exact ⟨_, alGet_alSet_self _ _ _⟩
  · simp only [hg]
    exact ⟨d, rfl⟩

theorem startFlow_doc_exists (s : SysState) (uid : Nat) (nm p now : String)
    (hb : isBanned s.banned (JSVal.num uid) = false) :
    ∃ d, alGet (startFlow s uid nm p now).users (toString uid) = some d := by
  unfold startFlow
  simp only [hb]
  exact startRegister_doc_exists _ uid nm p now

/-! ### C7: referral attribution is idempotent -/

/-- C7: processing the same referee's start event with the same
referral payload a second time leaves every referrals list — in
particular the referrer's — unchanged in length: after the first event
the referee's document exists, so the second event takes the
already-registered path and writes nothing to the users collection. -/
theorem referral_attribution_idempotent (s : SysState) (uid : Nat)
    (nm nm' p now now' key : String) :
    (getUserStatsKey (startFlow (startFlow s uid nm p now) uid nm' p now').users key).referrals.length
      = (getUserStatsKey (startFlow s uid nm p now).users key).referrals.length := by
  by_cases hb : isBanned s.banned (JSVal.num uid) = true
  · have h1 : startFlow s uid nm p now = s := by unfold startFlow; simp [hb]
    have h2 : startFlow s uid nm' p now' = s := by unfold startFlow; simp [hb]
    rw [h1, h2]
  · have hb' : isBanned s.banned (JSVal.num uid) = false := by
      revert hb; cases isBanned s.banned (JSVal.num uid) <;> simp
    obtain ⟨d, hd⟩ := startFlow_doc_exists s uid nm p now hb'
    rw [startFlow_users_of_doc (startFlow s uid nm p now) uid nm' p now' d hd]

/-! ### C8: a self-referral payload is never attributed -/

/-- C8: a start event whose referral payload equals the user's own id
string changes no referrals list anywhere: the payload guard
`startPayload !== String(userId)` rejects the attribution, and the
only possible write is the creation of the referee's own document with
an empty referrals list. -/
theorem self_referral_never_attributed (s : SysState) (uid : Nat) (nm now key : String) :
    (toString uid ∈ (getUserStatsKey (startFlow s uid nm (toString uid) now).users key).referrals)
      ↔ (toString uid ∈ (getUserStatsKey s.users key).referrals) := by
  by_cases hb : isBanned s.banned (JSVal.num uid) = true
  · have h1 : startFlow s uid nm (toString uid) now = s := by unfold startFlow; simp [hb]
    rw [h1]
  · have hb' : isBanned s.banned (JSVal.num uid) = false := by
      revert hb; cases isBanned s.banned (JSVal.num uid) <;> simp
    unfold startFlow startRegister
    simp only [hb']
    rcases (alGet s.users (toString uid)).eq_none_or_eq_some with hg | ⟨d, hg⟩
    · have hp : ¬ ((toString uid ≠ "") ∧ (toString uid ≠ toString uid)) := by simp
      simp only [hg, Bool.false_eq_true, if_false, if_neg hp]
      by_cases hk : key = toString uid
      · subst hk
        simp [getUserStatsKey, alGet_alSet_self, hg, initialUserDoc, defaultStats]
      · have h2 : alGet (alSet s.users (toString uid) (initialUserDoc uid nm now)) key
            = alGet s.users key := alGet_alSet_ne _ _ _ _ hk
        simp only [getUserStatsKey, h2]
    · simp only [hg, Bool.false_eq_true, if_false]

/-! ### C10: an upload by a user with no document strands the blob -/

/-- C10: for a user with no document in the users collection (never
issued `/start`), an otherwise-valid upload passes the quota gate
(default stats, `0 < 2`), stores the blob, and then the ledger write —
a Firestore `update`, which rejects on an absent document — fails: the
flow replies with the upload error, the stored blob persists under the
user's prefix, and no user document (hence no counter) is created. -/
theorem orphan_upload (s : SysState) (uid : Nat) (nm : String)
    (hdoc : alGet s.users (toString uid) = none)
    (hban : isBanned s.banned (JSVal.num uid) = false)
    (hext : jsEndsWith nm ".html" = true ∨ jsEndsWith nm ".zip" = true) :
    (uploadFlow s uid nm true).2 = UploadReply.errorMsg
    ∧ (uploadFlow s uid nm true).1.users = s.users
    ∧ uploadPath uid nm ∈ (uploadFlow s uid nm true).1.storage
    ∧ alGet (uploadFlow s uid nm true).1.users (toString uid) = none := by
  have hcan : canUploadFile s.users uid = true := by
    unfold canUploadFile getUserStats getUserStatsKey
    simp only [hdoc]
    decide
  have hflow : uploadFlow s uid nm true
      = ({ s with storage := savePath s.storage (uploadPath uid nm) }, UploadReply.errorMsg) := by
    simp [uploadFlow, hban, hcan, hext, updateFileCount_of_absent s uid true hdoc]
  rw [hflow]
  refine ⟨rfl, rfl, ?_, hdoc⟩
  show uploadPath uid nm ∈ savePath s.storage (uploadPath uid nm)
  unfold savePath
  by_cases hm : uploadPath uid nm ∈ s.storage
  · rw [if_pos hm]; exact hm
  · rw [if_neg hm]; exact List.mem_cons_self _ _

/-- The empty initial state: no documents, no blobs, no bans. -/
def oSys : SysState := { users := [], storage := [], banned := [], memUsers := [] }

/-- Witness for `orphan_upload`: user 9 has never issued `/start` on
the empty state and uploads `a.html`. -/
theorem orphan_upload_witness :
    alGet oSys.users (toString 9) = none
    ∧ isBanned oSys.banned (JSVal.num 9) = false
    ∧ (jsEndsWith "a.html" ".html" = true ∨ jsEndsWith "a.html" ".zip" = true)
    ∧ ((uploadFlow oSys 9 "a.html" true).2 = UploadReply.errorMsg
       ∧ (uploadFlow oSys 9 "a.html" true).1.users = oSys.users
       ∧ uploadPath 9 "a.html" ∈ (uploadFlow oSys 9 "a.html" true).1.storage
       ∧ alGet (uploadFlow oSys 9 "a.html" true).1.users (toString 9) = none) :=
  ⟨by decide, by decide, Or.inl (by decide),
   orphan_upload oSys 9 "a.html" (by decide) (by decide) (Or.inl (by decide))⟩

/-! ### C4: conversation state consumption -/

/-- The conversation state after the admin (id 1) presses the Ban User
menu button. -/
def cBan : ConvState := banUserAction 1 conv0 1

/-- C4 counterexample: after the admin replies to the armed ban state
with the id `"123"`, the ban is processed and the boolean mode flag is
cleared, but the primary per-admin state-map entry is NOT cleared — it
still reads `"ban_user"`, contradicting the claim that both are
returned to `None`. -/
theorem ban_state_entry_not_cleared :
    (textFlow 1 oSys cBan 1 "123").2.1.banUserMode = false
    ∧ JSVal.str "123" ∈ (textFlow 1 oSys cBan 1 "123").1.banned
    ∧ alGet (textFlow 1 oSys cBan 1 "123").2.1.adminStates 1 = some "ban_user" := by
  decide

/-- C4 amended: processing a qualifying free-text message consumes the
trigger exactly once, regardless of payload validity — for the
add-slots state the per-admin state-map entry is deleted, and for the
ban / unban / default-slots / referral-reward states the corresponding
boolean mode flag is reset; but for those four flag-based states the
per-admin state-map entry set by the menu action is not removed, only
the flag is. -/
theorem conv_state_single_shot (adminId : Nat) (s : SysState) (c : ConvState) (a : Nat)
    (t : String) (hadm : isAdmin adminId a = true) :
    (alGet c.adminStates a = some "add_slots" →
       alGet (textFlow adminId s c a t).2.1.adminStates a = none)
    ∧ (alGet c.adminStates a ≠ some "add_slots" → c.banUserMode = true →
       (textFlow adminId s c a t).2.1.banUserMode = false)
    ∧ (alGet c.adminStates a ≠ some "add_slots" → c.banUserMode = false →
       c.unbanUserMode = true → (textFlow adminId s c a t).2.1.unbanUserMode = false)
    ∧ (alGet c.adminStates a ≠ some "add_slots" → c.banUserMode = false →
       c.unbanUserMode = false → c.defaultSlotsMode = true →
       (textFlow adminId s c a t).2.1.defaultSlotsMode = false)
    ∧ (alGet c.adminStates a ≠ some "add_slots" → c.banUserMode = false →
       c.unbanUserMode = false → c.defaultSlotsMode = false → c.referralRewardMode = true →
       (textFlow adminId s c a t).2.1.referralRewardMode = false) := by
  have hA : ¬ (isAdmin adminId a = false) := by simp [hadm]
  refine ⟨?_, ?_, ?_, ?_, ?_⟩
  · intro hst
    unfold textFlow
    rw [if_neg hA, if_pos hst]
    repeat' split
    all_goals exact alGet_alDel_self _ _
  · intro hst hbm
    unfold textFlow
    rw [if_neg hA, if_neg hst, if_pos hbm]
  · intro hst hbm hum
    unfold textFlow
    rw [if_neg hA, if_neg hst, if_neg (by simp [hbm]), if_pos hum]
  · intro hst hbm hum hdm
    unfold textFlow
    rw [if_neg hA, if_neg hst, if_neg (by simp [hbm]), if_neg (by simp [hum]), if_pos hdm]
    repeat' split
    all_goals rfl
  · intro hst hbm hum hdm hrm
    unfold textFlow
    rw [if_neg hA, if_neg hst, if_neg (by simp [hbm]), if_neg (by simp [hum]),
        if_neg (by simp [hdm]), if_pos hrm]
    repeat' split
    all_goals rfl

/-- The conversation state after the admin (id 1) presses the Add
Slots menu button. -/
def cAdd : ConvState := addSlotsAction 1 conv0 1

/-- Witness for `conv_state_single_shot`: the armed add-slots state is
consumed by the reply `"9 3"`. -/
theorem conv_state_single_shot_witness :
    isAdmin 1 1 = true
    ∧ alGet cAdd.adminStates 1 = some "add_slots"
    ∧ alGet (textFlow 1 oSys cAdd 1 "9 3").2.1.adminStates 1 = none :=
  ⟨by decide, by decide,
   (conv_state_single_shot 1 oSys cAdd 1 "9 3" (by decide)).1 (by decide)⟩

/-! ### C3: the banned-user gate -/

/-- A state with one registered user (id 123, document present, one
stored blob) and nobody banned yet. -/
def banSys : SysState :=
  { users := [("123", { chatId := 123, name := "v", joinedAt := "t"
                      , stats := some defaultStats })]
  , storage := ["uploads/123/x.html"]
  , banned := []
  , memUsers := [123] }

/-- `banSys` after the admin (id 1) arms the ban flow and sends the
text `"123"`: the set now holds the string `"123"`. -/
def banSysAfter : SysState := (textFlow 1 banSys (banUserAction 1 conv0 1) 1 "123").1

/-- C3 evidence: after user id 123 is banned through the admin ban
flow, none of the four user-facing actions short-circuits.  The ban
flow stores the banned id as the string `"123"`, while every gate
tests the numeric `ctx.from.id` with strict `Set.has` equality, so
`isBanned(123)` is false; the upload proceeds all the way to a
successful blob save and a ledger increment, the list-files and
delete-menu actions list the user's files, and the `mystats` handler
contains no ban check at all (it always replies with the stats). -/
theorem ban_gate_ineffective :
    JSVal.str "123" ∈ banSysAfter.banned
    ∧ isBanned banSysAfter.banned (JSVal.num 123) = false
    ∧ (uploadFlow banSysAfter 123 "y.html" true).2 = UploadReply.successMsg
    ∧ (getUserStats (uploadFlow banSysAfter 123 "y.html" true).1.users 123).fileCount = 1
    ∧ myfilesFlow banSysAfter 123 = MyFilesReply.listMsg ["uploads/123/x.html"]
    ∧ deleteMenuFlow banSysAfter 123 = DeleteMenuReply.menuMsg ["x.html"]
    ∧ mystatsFlow banSysAfter 123 =
        { fileCount := 0, totalSlots := 2, referralsMade := 0, accountLevel := 1 } := by
  decide

/-! ### C9: fileCount can be driven below zero -/

/-- The empty state after user 7 uploads `a.html` without ever having
issued `/start`: the blob is stored, no document exists (C10). -/
def negSysA : SysState := (uploadFlow oSys 7 "a.html" true).1

/-- `negSysA` after user 7 now issues `/start`: a fresh document with
`fileCount = 0` is created while the orphan blob is still stored. -/
def negSysB : SysState := startFlow negSysA 7 "u" "" "t0"

/-- C9 counterexample: from the empty state, the reachable sequence
upload-without-document, `/start`, delete drives `fileCount` to `-1`:
the delete handler decrements unconditionally after a successful blob
deletion, with no lower clamp at zero. -/
theorem delete_drives_count_negative :
    (deleteFlow negSysB 7 "a.html" true).2 = DeleteReply.deletedMsg
    ∧ (getUserStats (deleteFlow negSysB 7 "a.html" true).1.users 7).fileCount = -1
    ∧ ¬ (0 ≤ (getUserStats (deleteFlow negSysB 7 "a.html" true).1.users 7).fileCount) := by
  decide

/-- C9 amended: `fileCount` is an integer with no lower bound
enforced: a delete whose blob deletion succeeds decrements it by
exactly one even when it is already zero, so it can become negative;
it stays non-negative only while every decrement is matched by an
earlier counted increment. -/
theorem delete_decrements_exactly_one (s : SysState) (uid : Nat) (nm : String) (d : UserDoc)
    (hdoc : alGet s.users (toString uid) = some d)
    (hblob : uploadPath uid nm ∈ s.storage) :
    (getUserStats (deleteFlow s uid nm true).1.users uid).fileCount
      = (getUserStats s.users uid).fileCount - 1 := by
  have hu : (deleteFlow s uid nm true).1.users
      = alSet s.users (toString uid)
          { d with stats := some { getUserStats s.users uid with
              fileCount := (getUserStats s.users uid).fileCount - 1 } } := by
    simp [deleteFlow, hblob, updateFileCount_false_of_get s uid d hdoc]
  rw [hu]
  simp [getUserStats, getUserStatsKey, alGet_alSet_self]

/-- Witness for `delete_decrements_exactly_one` at `wSys`. -/
theorem delete_decrements_exactly_one_witness :
    alGet wSys.users (toString 5) = some wDoc
    ∧ uploadPath 5 "a.html" ∈ wSys.storage
    ∧ (getUserStats (deleteFlow wSys 5 "a.html" true).1.users 5).fileCount
        = (getUserStats wSys.users 5).fileCount - 1 :=
  ⟨by decide, by decide,
   delete_decrements_exactly_one wSys 5 "a.html" wDoc (by decide) (by decide)⟩
